import Mathlib

/-!
Verification of the general-purpose agent's token cache and streaming invoker.

Shallow embedding of `src/amplify/custom/agents/generalPurpose/src/mcp_client/client.py`
(`_get_access_token`, `get_streamable_http_mcp_client`) and of the streaming
request handler in `src/amplify/custom/agents/generalPurpose/src/main.py`
(the `invoke` entrypoint: memory-session setup and the `async for` streaming
loop with its `try`/`except` error conversion).

Time is modelled as `Int` (the Python code uses `time.time()`; all the
properties of interest are at integer instants).  Network interaction is
modelled by passing the outcome of the single `requests.post` call as an
explicit `HttpResult` argument; the number of outbound calls performed is
returned alongside the result.
-/

/-- The parsed JSON body of a token-endpoint response, as the Python code
reads it: `token_data["access_token"]` (raises `KeyError` when absent) and
`token_data.get("expires_in", 3600)`. -/
structure TokenResponseBody where
  access_token : Option String
  expires_in : Option Int
deriving DecidableEq, Repr

/-- Outcome of the `requests.post` call in `_get_access_token`:
either the endpoint is unreachable (the call raises a connection error), or
a response arrives with some HTTP status and a body that may or may not parse
as JSON (`none` = `response.json()` raises). -/
inductive HttpResult where
  | unreachable
  | response (status : Nat) (body : Option TokenResponseBody)
deriving DecidableEq, Repr

/-- The Python exceptions the token-cache code can raise, plus `authError`
for the `AuthError` class named by the spec's error taxonomy (no code path
in `client.py` constructs it; it is included so that the spec's claim
"fails with `AuthError`" is statable against the code's actual behaviour). -/
inductive PyError where
  | connectionError
  | jsonDecodeError
  | keyError (key : String)
  | runtimeError (msg : String)
  | authError
deriving DecidableEq, Repr

deriving instance DecidableEq for Except

/-- The module-level `_token_cache` dict: `{"token": None, "expires_at": 0}`. -/
structure TokenCache where
  token : Option String
  expires_at : Int
deriving DecidableEq, Repr

/-- Python truthiness of the cached `token` slot (`None` and `""` are falsy),
as tested by `if _token_cache["token"] and ...`. -/
def tokenTruthy : Option String → Bool
  | none => false
  | some s => !(s == "")

/-- The cache-validity test of `_get_access_token`:
`_token_cache["token"] and current_time < _token_cache["expires_at"] - 300`. -/
def cacheValid (now : Int) (st : TokenCache) : Bool :=
  tokenTruthy st.token && decide (now < st.expires_at - 300)

/-- The initial value of `_token_cache`. -/
def emptyCache : TokenCache := ⟨none, 0⟩

/-- `_get_access_token` from `client.py`, as a state transformer on the token
cache.  Returns the result (token string or raised exception), the cache
after the call, and the number of outbound network calls made (0 or 1).
On a cache hit the cached string is returned unchanged; otherwise one POST is
issued, whose outcome `fetch` is consumed exactly as the Python does:
a connection failure propagates, a non-JSON body propagates a decode error,
a body without `"access_token"` raises `KeyError`, and otherwise the token is
cached with `expires_at = current_time + expires_in` (default 3600). -/
def getAccessToken (now : Int) (fetch : HttpResult) (st : TokenCache) :
    Except PyError String × TokenCache × Nat :=
  if cacheValid now st then
    (.ok (st.token.getD ""), st, 0)
  else
    match fetch with
    | .unreachable => (.error .connectionError, st, 1)
    | .response _ none => (.error .jsonDecodeError, st, 1)
    | .response _ (some body) =>
      match body.access_token with
      | none => (.error (.keyError "access_token"), st, 1)
      | some tok =>
        (.ok tok, ⟨some tok, now + body.expires_in.getD 3600⟩, 1)

/-- A sequence of `_get_access_token` calls: each entry provides the instant
of the call and the outcome the network would deliver were a POST issued.
Returns the list of per-call results, the final cache, and the total number
of outbound network calls. -/
def runCalls : TokenCache → List (Int × HttpResult) →
    List (Except PyError String) × TokenCache × Nat
  | st, [] => ([], st, 0)
  | st, (t, f) :: rest =>
    let r := getAccessToken t f st
    let rs := runCalls r.2.1 rest
    (r.1 :: rs.1, rs.2.1, r.2.2 + rs.2.2)

/-- The gateway client value built by `get_streamable_http_mcp_client`:
the URL and the `Authorization` header captured by the
`lambda: streamablehttp_client(gateway_url, headers=...)` closure. -/
structure MCPClientModel where
  url : String
  authHeader : String
deriving DecidableEq, Repr

/-- `get_streamable_http_mcp_client` from `client.py`: reads `GATEWAY_URL`
(`none` models an unset variable; `if not gateway_url` also rejects `""`),
raising `RuntimeError` before any token request when it is falsy; otherwise
obtains an access token through the cache and builds the client whose
factory closure captures `"Bearer " ++ token`. -/
def getStreamableHttpMcpClient (gatewayUrl : Option String) (now : Int)
    (fetch : HttpResult) (st : TokenCache) :
    Except PyError MCPClientModel × TokenCache × Nat :=
  if tokenTruthy gatewayUrl then
    match getAccessToken now fetch st with
    | (.ok tok, st1, n) =>
      (.ok ⟨gatewayUrl.getD "", "Bearer " ++ tok⟩, st1, n)
    | (.error e, st1, n) => (.error e, st1, n)
  else
    (.error (.runtimeError "Missing required environment variable: GATEWAY_URL"), st, 0)

/-- The gateway client selected at module import in `main.py`: the dummy
local-dev client when `os.getenv("LOCAL_DEV") == "1"`, otherwise the real
client from `get_streamable_http_mcp_client`. -/
inductive GatewayClient where
  | dummy
  | real (c : MCPClientModel)
deriving DecidableEq, Repr

/-- The module-import branch of `main.py` choosing the gateway client
(`if os.getenv("LOCAL_DEV") == "1": ... else: get_streamable_http_mcp_client()`). -/
def moduleInitGateway (localDev : Option String) (gatewayUrl : Option String)
    (now : Int) (fetch : HttpResult) (st : TokenCache) :
    Except PyError GatewayClient × TokenCache × Nat :=
  if localDev == some "1" then
    (.ok .dummy, st, 0)
  else
    match getStreamableHttpMcpClient gatewayUrl now fetch st with
    | (.ok c, st1, n) => (.ok (.real c), st1, n)
    | (.error e, st1, n) => (.error e, st1, n)

/-- A call of the factory closure
`lambda: streamablehttp_client(gateway_url, headers={...})` held by the
`MCPClient`.  The closure captured plain strings at construction time, so the
connection it opens is determined by the client value alone; the instant of
the call and the token cache's state at that instant do not enter. -/
def clientFactoryCall (c : MCPClientModel) (_laterTime : Int)
    (_laterCache : TokenCache) : MCPClientModel :=
  ⟨c.url, c.authHeader⟩

/-! The streaming loop of `invoke`. -/

/-- One event delivered by `agent.stream_async`: either an event whose
`"data"` entry is a string (a text fragment), or any other event, which the
loop body ignores (`if "data" in event and isinstance(event["data"], str)`). -/
inductive StreamEvent where
  | text (s : String)
  | other
deriving DecidableEq, Repr

/-- The text fragments carried by a list of stream events, in order. -/
def textFragments : List StreamEvent → List String
  | [] => []
  | .text s :: rest => s :: textFragments rest
  | .other :: rest => textFragments rest

/-- The `try`/`except` streaming loop of `invoke` in `main.py`.  The
underlying stream is modelled as the sequence of pull outcomes: each pull
either yields an event (`.ok`) or raises a fault with a message (`.error`).
Text-fragment payloads are yielded verbatim; the first raised fault is caught
by the `except` clause, which yields the single synthetic fragment
`"I encountered an error: " ++ msg` and ends the sequence — outcomes after
the fault are never pulled. -/
def invokeLoop : List (Except String StreamEvent) → List String
  | [] => []
  | .ok (.text s) :: rest => s :: invokeLoop rest
  | .ok .other :: rest => invokeLoop rest
  | .error msg :: _ => ["I encountered an error: " ++ msg]

/-! Memory-session setup in `invoke`. -/

/-- The `AgentCoreMemorySessionManager` value, abstracted to its identifying
configuration. -/
structure MemorySessionManager where
  memory_id : String
  session_id : String
  actor_id : String
deriving DecidableEq, Repr

/-- Log lines emitted by the handler. -/
inductive LogEntry where
  | infoLog (s : String)
  | warningLog (s : String)
  | errorLog (s : String)
deriving DecidableEq, Repr

/-- The memory-configuration block of `invoke` (`main.py` lines 158–184).
`memoryId` models `MEMORY_ID` (`none` = unset; `if MEMORY_ID:` also rejects
`""`); `ctorResult` is the outcome of the external
`AgentCoreMemorySessionManager(...)` construction (`.error` = it raised).
Returns the resulting `session_manager` (downgraded to `none` on any
failure) and the log lines; the function is total — no fault escapes. -/
def initMemorySession (memoryId : Option String)
    (ctorResult : Except String MemorySessionManager) :
    Option MemorySessionManager × List LogEntry :=
  if tokenTruthy memoryId then
    match ctorResult with
    | .ok sm =>
      (some sm, [.infoLog "Memory session manager initialized"])
    | .error e =>
      (none, [.errorLog ("Failed to initialize memory session manager: " ++ e)])
  else
    (none, [.warningLog "MEMORY_ID is not set. Skipping memory session manager initialization."])

/-! Theorems about the streaming loop. -/

/-- C4: when no fault occurs while pulling fragments, the produced
sequence equals the underlying sequence of text fragments exactly: no added,
dropped, or reordered elements. -/
theorem invoke_no_fault_exact (events : List StreamEvent) :
    invokeLoop (events.map Except.ok) = textFragments events := by
  induction events with
  | nil => rfl
  | cons e rest ih =>
    cases e with
    | text s => simp [invokeLoop, textFragments, ih]
    | other => simp [invokeLoop, textFragments, ih]

/-- C1: if pulling the next fragment raises a fault after the events in
`events` have been delivered (k = `(textFragments events).length` text
fragments emitted), the produced sequence is exactly those k fragments
followed by exactly one synthetic fragment `"I encountered an error: <msg>"`
and nothing after it — whatever `rest` the underlying stream might still
hold is never pulled, already-emitted fragments are not retracted, and no
fault propagates (the loop returns an ordinary list). -/
theorem invoke_fault_terminal (events : List StreamEvent) (msg : String)
    (rest : List (Except String StreamEvent)) :
    invokeLoop (events.map Except.ok ++ Except.error msg :: rest) =
      textFragments events ++ ["I encountered an error: " ++ msg] := by
  induction events with
  | nil => rfl
  | cons e tail ih =>
    cases e with
    | text s => simp [invokeLoop, textFragments, ih]
    | other => simp [invokeLoop, textFragments, ih]

/-! Helper lemmas about a single `_get_access_token` call. -/

/-- On a cache hit (`cacheValid` true) the call returns the cached string,
leaves the cache alone, and makes no network call. -/
theorem getAccessToken_hit (now : Int) (fetch : HttpResult) (st : TokenCache)
    (h : cacheValid now st = true) :
    getAccessToken now fetch st = (.ok (st.token.getD ""), st, 0) := by
  simp [getAccessToken, h]

/-- On a cache miss exactly one network call is made, whatever its outcome. -/
theorem getAccessToken_miss_calls (now : Int) (fetch : HttpResult) (st : TokenCache)
    (h : cacheValid now st = false) :
    (getAccessToken now fetch st).2.2 = 1 := by
  cases fetch with
  | unreachable => simp [getAccessToken, h]
  | response s b =>
    cases b with
    | none => simp [getAccessToken, h]
    | some body =>
      cases hb : body.access_token with
      | none => simp [getAccessToken, h, hb]
      | some tok => simp [getAccessToken, h, hb]

/-- A fetch at `now` from an invalid cache with a well-formed response stores
the token with expiry `now + expires_in`. -/
theorem getAccessToken_refresh (now : Int) (st : TokenCache) (status : Nat)
    (tok : String) (e : Option Int) (h : cacheValid now st = false) :
    getAccessToken now (.response status (some ⟨some tok, e⟩)) st =
      (.ok tok, ⟨some tok, now + e.getD 3600⟩, 1) := by
  simp [getAccessToken, h]

/-! Theorems about the token cache. -/

/-- C2 (counterexample): for the token fetched at `T = 0` with
`expires_in = 1000`, the claim asserts that a call at `T + E − 301 = 699`
issues a network call and a call at `T + E − 299 = 701` does not; the code
does the reverse (at `699` the token is still outside the 300-second buffer,
at `701` it is inside it). -/
theorem token_refetch_boundary_cex :
    ¬ (((getAccessToken 699 .unreachable
          ((getAccessToken 0 (.response 200 (some ⟨some "tok", some 1000⟩))
            emptyCache).2.1)).2.2 = 1) ∧
       ((getAccessToken 701 .unreachable
          ((getAccessToken 0 (.response 200 (some ⟨some "tok", some 1000⟩))
            emptyCache).2.1)).2.2 = 0)) := by
  decide

/-- C2 (amended): for every token fetched at time `T` with `expires_in = E`,
a `get_token()` call at `T + E − 301` does **not** refetch (it serves the
cached token with no network call), and a call at `T + E − 299` **does**
issue a network call. -/
theorem token_refetch_boundary (T E : Int) (tok : String) (f2 f3 : HttpResult)
    (st1 : TokenCache) (htok : tok ≠ "")
    (hst : st1 = (getAccessToken T (.response 200 (some ⟨some tok, some E⟩))
                    emptyCache).2.1) :
    (getAccessToken (T + E - 301) f2 st1).2.2 = 0 ∧
    (getAccessToken (T + E - 301) f2 st1).1 = .ok tok ∧
    (getAccessToken (T + E - 299) f3 st1).2.2 = 1 := by
  have h0 : cacheValid T emptyCache = false := by
    simp [cacheValid, tokenTruthy, emptyCache]
  have hst1 : st1 = ⟨some tok, T + E⟩ := by
    rw [hst, getAccessToken_refresh T emptyCache 200 tok (some E) h0]
    simp
  have hbeq : (tok == "") = false := beq_eq_false_iff_ne.mpr htok
  have hv1 : cacheValid (T + E - 301) ⟨some tok, T + E⟩ = true := by
    simp [cacheValid, tokenTruthy, hbeq]
  have hv2 : cacheValid (T + E - 299) ⟨some tok, T + E⟩ = false := by
    simp [cacheValid, tokenTruthy, hbeq]
  subst hst1
  refine ⟨?_, ?_, ?_⟩
  · simp [getAccessToken_hit _ f2 _ hv1]
  · simp [getAccessToken_hit _ f2 _ hv1]
  · exact getAccessToken_miss_calls _ f3 _ hv2

/-- C2 (witness). -/
theorem token_refetch_boundary_witness :
    ("t" : String) ≠ "" ∧
    ((getAccessToken (5 + 1000 - 301) .unreachable ⟨some "t", 1005⟩).2.2 = 0 ∧
     (getAccessToken (5 + 1000 - 301) .unreachable ⟨some "t", 1005⟩).1 = .ok "t" ∧
     (getAccessToken (5 + 1000 - 299) .unreachable ⟨some "t", 1005⟩).2.2 = 1) :=
  ⟨by decide,
   token_refetch_boundary 5 1000 "t" .unreachable .unreachable
     ⟨some "t", 1005⟩ (by decide) (by decide)⟩

/-- From a valid cached token, any sequence of calls all falling strictly
before `expires_at − 300` serves the cached value every time with zero
network calls and an unchanged cache. -/
theorem runCalls_cached (tok : String) (ea : Int)
    (calls : List (Int × HttpResult)) (htok : tok ≠ "")
    (hts : ∀ p ∈ calls, p.1 < ea - 300) :
    runCalls ⟨some tok, ea⟩ calls =
      (List.replicate calls.length (Except.ok tok), ⟨some tok, ea⟩, 0) := by
  have hbeq : (tok == "") = false := beq_eq_false_iff_ne.mpr htok
  induction calls with
  | nil => rfl
  | cons p rest ih =>
    obtain ⟨t, f⟩ := p
    have h1 : t < ea - 300 := hts (t, f) (by simp)
    have hv : cacheValid t ⟨some tok, ea⟩ = true := by
      simp [cacheValid, tokenTruthy, hbeq]
      omega
    have ih' := ih (fun q hq => hts q (by simp [hq]))
    simp [runCalls, getAccessToken_hit t f _ hv, ih', List.replicate]

/-- C3: starting from the empty cache, a first `get_token()` call at time `T`
answered with token `tok` and `expires_in = E`, followed by any further calls
all strictly before `T + E − 300`, issues exactly one outbound network call
in total, and every call returns the same token string. -/
theorem token_cache_single_fetch (T E : Int) (tok : String)
    (calls : List (Int × HttpResult)) (htok : tok ≠ "")
    (hts : ∀ p ∈ calls, p.1 < T + E - 300) :
    runCalls emptyCache ((T, .response 200 (some ⟨some tok, some E⟩)) :: calls) =
      (Except.ok tok :: List.replicate calls.length (Except.ok tok),
       ⟨some tok, T + E⟩, 1) := by
  have h0 : cacheValid T emptyCache = false := by
    simp [cacheValid, tokenTruthy, emptyCache]
  simp [runCalls, getAccessToken_refresh T emptyCache 200 tok (some E) h0,
    runCalls_cached tok (T + E) calls htok hts]

/-- C3 (witness): three calls, one network fetch, same token each time. -/
theorem token_cache_single_fetch_witness :
    ("t" : String) ≠ "" ∧
    runCalls emptyCache
      ((0, .response 200 (some ⟨some "t", some 1000⟩)) ::
        [(100, .unreachable), (650, .unreachable)]) =
      (Except.ok "t" :: List.replicate 2 (Except.ok "t"),
       ⟨some "t", 0 + 1000⟩, 1) :=
  ⟨by decide,
   token_cache_single_fetch 0 1000 "t" [(100, .unreachable), (650, .unreachable)]
     (by decide) (by decide)⟩

/-- C5 (counterexample): the code never raises an `AuthError` and never
inspects the HTTP status.  With an empty cache, a non-success (400) response
whose body carries `access_token` is accepted and the token returned — where
the claim demands a failure; and a 200 response lacking `access_token` raises
the generic `KeyError`, not `AuthError`. -/
theorem token_error_type_cex :
    (getAccessToken 0 (.response 400 (some ⟨some "tok", some 3600⟩))
       emptyCache).1 = .ok "tok" ∧
    (getAccessToken 0 (.response 200 (some ⟨none, none⟩)) emptyCache).1 =
      .error (.keyError "access_token") ∧
    (getAccessToken 0 (.response 200 (some ⟨none, none⟩)) emptyCache).1 ≠
      .error .authError := by
  decide

/-- C5 (amended): on a cache miss, `get_token()` propagates a generic fault —
the connection error when the endpoint is unreachable, a JSON decode error
when the body does not parse, `KeyError "access_token"` when the parsed body
lacks the access-token field — and otherwise returns the token string from
the body; the HTTP status is never consulted and no dedicated `AuthError` is
raised. -/
theorem token_error_classification (now : Int) (fetch : HttpResult)
    (st : TokenCache) (h : cacheValid now st = false) :
    (getAccessToken now fetch st).1 =
      (match fetch with
       | .unreachable => .error .connectionError
       | .response _ none => .error .jsonDecodeError
       | .response _ (some body) =>
         match body.access_token with
         | none => .error (.keyError "access_token")
         | some tok => .ok tok) := by
  cases fetch with
  | unreachable => simp [getAccessToken, h]
  | response s b =>
    cases b with
    | none => simp [getAccessToken, h]
    | some body =>
      cases hb : body.access_token with
      | none => simp [getAccessToken, h, hb]
      | some tok => simp [getAccessToken, h, hb]

/-- C5 (witness). -/
theorem token_error_classification_witness :
    cacheValid 0 emptyCache = false ∧
    (getAccessToken 0 .unreachable emptyCache).1 = .error .connectionError :=
  ⟨by decide, token_error_classification 0 .unreachable emptyCache (by decide)⟩

/-- C6: whenever a refresh actually happens at time `now` (the cache check
failed) and the response body lacks `expires_in`, the stored expiry is
exactly `now + 3600`, and the token itself is cached. -/
theorem default_expiry_on_missing_field (now : Int) (st : TokenCache)
    (status : Nat) (tok : String) (h : cacheValid now st = false) :
    (getAccessToken now (.response status (some ⟨some tok, none⟩)) st).2.1 =
      ⟨some tok, now + 3600⟩ := by
  rw [getAccessToken_refresh now st status tok none h]
  simp

/-- C6 (witness). -/
theorem default_expiry_on_missing_field_witness :
    cacheValid 42 emptyCache = false ∧
    (getAccessToken 42 (.response 200 (some ⟨some "t", none⟩))
       emptyCache).2.1 = ⟨some "t", 42 + 3600⟩ :=
  ⟨by decide, default_expiry_on_missing_field 42 emptyCache 200 "t" (by decide)⟩

/-- C7: with the gateway URL unset (`GATEWAY_URL` missing from the
environment) and local-dev mode not active, module import raises the
configuration `RuntimeError` before any token request: zero network calls
are made and the token cache is untouched. -/
theorem gateway_url_missing (localDev : Option String) (now : Int)
    (fetch : HttpResult) (st : TokenCache) (h : localDev ≠ some "1") :
    moduleInitGateway localDev none now fetch st =
      (.error (.runtimeError "Missing required environment variable: GATEWAY_URL"),
       st, 0) := by
  have hld : (localDev == some "1") = false := beq_eq_false_iff_ne.mpr h
  simp [moduleInitGateway, getStreamableHttpMcpClient, tokenTruthy, hld]

/-- C7 (witness). -/
theorem gateway_url_missing_witness :
    (none : Option String) ≠ some "1" ∧
    moduleInitGateway none none 0 .unreachable emptyCache =
      (.error (.runtimeError "Missing required environment variable: GATEWAY_URL"),
       emptyCache, 0) :=
  ⟨by decide, gateway_url_missing none 0 .unreachable emptyCache (by decide)⟩

/-- C8: with the memory-store identifier absent the handler logs a warning
and proceeds with no session manager; with it present but the session-manager
construction raising, the handler logs the error and likewise proceeds with
no session manager.  `initMemorySession` is a total function — no fault
escapes in either case. -/
theorem memory_degrades_to_none (ctorResult : Except String MemorySessionManager)
    (mid e : String) (hmid : mid ≠ "") :
    initMemorySession none ctorResult =
      (none, [.warningLog "MEMORY_ID is not set. Skipping memory session manager initialization."]) ∧
    initMemorySession (some mid) (.error e) =
      (none, [.errorLog ("Failed to initialize memory session manager: " ++ e)]) := by
  have hbeq : (mid == "") = false := beq_eq_false_iff_ne.mpr hmid
  exact ⟨rfl, by simp [initMemorySession, tokenTruthy, hbeq]⟩

/-- C8 (witness). -/
theorem memory_degrades_to_none_witness :
    ("m" : String) ≠ "" ∧
    (initMemorySession none (.error "boom") =
      (none, [.warningLog "MEMORY_ID is not set. Skipping memory session manager initialization."]) ∧
     initMemorySession (some "m") (.error "boom") =
      (none, [.errorLog ("Failed to initialize memory session manager: " ++ "boom")])) :=
  ⟨by decide, memory_degrades_to_none (.error "boom") "m" "boom" (by decide)⟩

/-- C9: when a `get_token()` call fails — for any of the three failure modes —
the cache slot is exactly what it was before the attempt: neither the token
value nor the stored expiry is modified. -/
theorem refresh_failure_cache_unchanged (now : Int) (fetch : HttpResult)
    (st : TokenCache) (e : PyError)
    (h : (getAccessToken now fetch st).1 = .error e) :
    (getAccessToken now fetch st).2.1 = st := by
  by_cases hv : cacheValid now st = true
  · rw [getAccessToken_hit now fetch st hv] at h
    exact absurd h (by simp)
  · rw [Bool.not_eq_true] at hv
    cases fetch with
    | unreachable => simp [getAccessToken, hv]
    | response s b =>
      cases b with
      | none => simp [getAccessToken, hv]
      | some body =>
        cases hb : body.access_token with
        | none => simp [getAccessToken, hv, hb]
        | some tok => simp [getAccessToken, hv, hb] at h

/-- C9 (witness). -/
theorem refresh_failure_cache_unchanged_witness :
    (getAccessToken 7 .unreachable ⟨some "old", 100⟩).1 =
      .error PyError.connectionError ∧
    (getAccessToken 7 .unreachable ⟨some "old", 100⟩).2.1 = ⟨some "old", 100⟩ :=
  ⟨by decide,
   refresh_failure_cache_unchanged 7 .unreachable ⟨some "old", 100⟩
     .connectionError (by decide)⟩

/-- C10: the bearer token of a gateway client is fixed at construction time.
If the token read while building the client is `tok`, the constructed client
carries header `"Bearer " ++ tok`, and a factory call at any later instant,
under any later cache state (expired, refreshed, or overwritten), opens the
connection with that very same header. -/
theorem bearer_fixed_at_construction (u : String) (now : Int)
    (fetch : HttpResult) (st st1 : TokenCache) (tok : String) (n : Nat)
    (laterTime : Int) (laterCache : TokenCache) (hu : u ≠ "")
    (htok : getAccessToken now fetch st = (.ok tok, st1, n)) :
    getStreamableHttpMcpClient (some u) now fetch st =
      (.ok ⟨u, "Bearer " ++ tok⟩, st1, n) ∧
    clientFactoryCall ⟨u, "Bearer " ++ tok⟩ laterTime laterCache =
      ⟨u, "Bearer " ++ tok⟩ := by
  have hbeq : (u == "") = false := beq_eq_false_iff_ne.mpr hu
  exact ⟨by simp [getStreamableHttpMcpClient, tokenTruthy, hbeq, htok], rfl⟩

/-- C10 (witness): the client built at time 0 still presents the header
captured at construction when the factory runs at time `10 ^ 6` against a
cache that has since been overwritten with a different token. -/
theorem bearer_fixed_at_construction_witness :
    ("gw" : String) ≠ "" ∧
    getAccessToken 0 (.response 200 (some ⟨some "t0", some 100⟩)) emptyCache =
      (.ok "t0", ⟨some "t0", 100⟩, 1) ∧
    (getStreamableHttpMcpClient (some "gw") 0
        (.response 200 (some ⟨some "t0", some 100⟩)) emptyCache =
      (.ok ⟨"gw", "Bearer " ++ "t0"⟩, ⟨some "t0", 100⟩, 1) ∧
     clientFactoryCall ⟨"gw", "Bearer " ++ "t0"⟩ 1000000 ⟨some "t1", 2000000⟩ =
      ⟨"gw", "Bearer " ++ "t0"⟩) :=
  ⟨by decide, by decide,
   bearer_fixed_at_construction "gw" 0
     (.response 200 (some ⟨some "t0", some 100⟩)) emptyCache
     ⟨some "t0", 100⟩ "t0" 1 1000000 ⟨some "t1", 2000000⟩
     (by decide) (by decide)⟩
